import Mathlib

/-!
Shallow embedding of the gallery/lightbox module of `src/script-optimized.js`
(portfolio page). JavaScript numbers that can become NaN (the image index,
which is computed with `%` against a possibly-zero length) are modelled by
`JsNum`; DOM mutations are modelled as fields of an explicit `GalleryState`;
`console.error` calls are returned as a list of log messages; a JavaScript
`TypeError` (property access on `undefined`) is modelled as `Except.error`.
The asynchronous image pre-decode of `updateGalleryImage` is modelled by a
`DecodeOutcome` parameter: the source registers the same `done` continuation
for decode success and decode failure, and runs it synchronously when
`decode` is unavailable, so each outcome is a branch of the model.
-/

/-- JavaScript number restricted to the values the gallery code produces:
integers, or NaN (from `x % 0`). -/
inductive JsNum where
  | int (n : Int)
  | nan
deriving DecidableEq, Repr

/-- JavaScript `%` on integers: remainder with the sign of the dividend. -/
def jsRem (a b : Int) : Int :=
  if a < 0 then -((-a) % b) else a % b

/-- `a + b` with NaN propagation. -/
def JsNum.add : JsNum → JsNum → JsNum
  | .int a, .int b => .int (a + b)
  | _, _ => .nan

/-- `a - b` with NaN propagation. -/
def JsNum.sub : JsNum → JsNum → JsNum
  | .int a, .int b => .int (a - b)
  | _, _ => .nan

/-- `a % b`: NaN when the divisor is `0` or either side is NaN
(`(0 + 1) % 0` is how the source produces NaN on an empty gallery). -/
def JsNum.mod : JsNum → JsNum → JsNum
  | .int a, .int b => if b = 0 then .nan else .int (jsRem a b)
  | _, _ => .nan

/-- Rendering of a JsNum by template-literal interpolation. -/
def JsNum.toStr : JsNum → String
  | .int n => toString n
  | .nan => "NaN"

/-- A JavaScript value passed to `openGallery(projectKey)`: the code first
checks `!projectKey || typeof projectKey !== 'string'`. -/
inductive JsValue where
  | str (s : String)
  | num (n : Int)
  | boolean (b : Bool)
  | undef
  | nullv
deriving DecidableEq, Repr

/-- Outcome of the `preImg.decode()` step in `updateGalleryImage`:
the promise resolves, the promise rejects, or `decode` is not available. -/
inductive DecodeOutcome where
  | success
  | failure
  | unavailable
deriving DecidableEq, Repr

/-- Keyboard keys handled by the `keydown` listener of
`initPortfolioHandlers`. -/
inductive Key where
  | escape
  | arrowLeft
  | arrowRight
  | other
deriving DecidableEq, Repr

/-- One entry of `portfolioData`: display title and ordered image paths. -/
structure ProjectEntry where
  title : String
  images : List String
deriving DecidableEq, Repr

/-- The static catalog `portfolioData` of `src/script-optimized.js`,
as an association list in source order. -/
def portfolioData : List (String × ProjectEntry) :=
  [ ("chassis-gallery",
     { title := "Chassis Gallery",
       images :=
        [ "shell eco marathon chassis 2025.webp",
          "shell eco marathon chassis 2023.webp",
          "Formula Student chassis.webp",
          "Global chassis.webp",
          "Ever Chassis.webp" ] }),
    ("formula-chassis",
     { title := "Formula Student Chassis",
       images :=
        [ "Photos/Formula Student Chassis/A.webp",
          "Photos/Formula Student Chassis/B.webp",
          "Photos/Formula Student Chassis/C.webp",
          "Photos/Formula Student Chassis/D.webp",
          "Photos/Formula Student Chassis/E.webp",
          "Photos/Formula Student Chassis/R.webp" ] }),
    ("ever",
     { title := "EVER Monaco",
       images :=
        [ "Photos/EVER/1.webp",
          "Photos/EVER/2.webp",
          "Photos/EVER/C.webp" ] }),
    ("shell-eco",
     { title := "Shell Eco-Marathon Vehicle",
       images :=
        [ "Photos/Shell Eco-Marathon Vehicle/1.webp",
          "Photos/Shell Eco-Marathon Vehicle/2.webp",
          "Photos/Shell Eco-Marathon Vehicle/3.webp",
          "Photos/Shell Eco-Marathon Vehicle/4.webp",
          "Photos/Shell Eco-Marathon Vehicle/5.webp",
          "Photos/Shell Eco-Marathon Vehicle/6.webp",
          "Photos/Shell Eco-Marathon Vehicle/7.webp",
          "Photos/Shell Eco-Marathon Vehicle/8.webp",
          "Photos/Shell Eco-Marathon Vehicle/9.webp",
          "Photos/Shell Eco-Marathon Vehicle/A.webp" ] }),
    ("achievements",
     { title := "Engineering Achievements",
       images :=
        [ "Photos/Achievements/A-1.webp",
          "Photos/Achievements/A.webp",
          "Photos/Achievements/B.webp",
          "Photos/Achievements/C.webp",
          "Photos/Achievements/D.webp",
          "Photos/Achievements/E.webp" ] }),
    ("helmet",
     { title := "Helmet Design & FEA",
       images :=
        [ "Photos/Helemt/A.webp",
          "Photos/Helemt/B.webp",
          "Photos/Helemt/C.webp",
          "Photos/Helemt/D.webp",
          "Photos/Helemt/FEA-Helmet.webp" ] }),
    ("manufacturing",
     { title := "Manufacturing & Prototyping",
       images :=
        [ "Photos/Manufacturing & Prototyping/1.webp",
          "Photos/Manufacturing & Prototyping/2.webp",
          "Photos/Manufacturing & Prototyping/3.webp",
          "Photos/Manufacturing & Prototyping/4.webp",
          "Photos/Manufacturing & Prototyping/5.webp" ] }),
    ("sheet-metal",
     { title := "Sheet Metal Analysis",
       images :=
        [ "Photos/Sheet Metal Analysis/1.jpeg",
          "Photos/Sheet Metal Analysis/2.jpeg",
          "Photos/Sheet Metal Analysis/3.jpeg",
          "Photos/Sheet Metal Analysis/4.jpeg",
          "Photos/Sheet Metal Analysis/Punch.jpeg" ] }),
    ("seating-chairs",
     { title := "Sheet Metal - Seating Chairs",
       images :=
        [ "Photos/Sheet Metal -Seating chairs/1.png",
          "Photos/Sheet Metal -Seating chairs/2.jpg",
          "Photos/Sheet Metal -Seating chairs/3.jpg",
          "Photos/Sheet Metal -Seating chairs/5.png",
          "Photos/Sheet Metal -Seating chairs/6.png",
          "Photos/Sheet Metal -Seating chairs/A.jpg",
          "Photos/Sheet Metal -Seating chairs/B.png",
          "Photos/Sheet Metal -Seating chairs/C.png",
          "Photos/Sheet Metal -Seating chairs/D.png",
          "Photos/Sheet Metal -Seating chairs/E.png",
          "Photos/Sheet Metal -Seating chairs/G.jpg",
          "Photos/Sheet Metal -Seating chairs/H.png",
          "Photos/Sheet Metal -Seating chairs/W-1.png",
          "Photos/Sheet Metal -Seating chairs/W-2.jpg",
          "Photos/Sheet Metal -Seating chairs/W-4.jpg",
          "Photos/Sheet Metal -Seating chairs/W.jpg" ] }),
    ("solidworks-champion",
     { title := "SolidWorks Champion",
       images :=
        [ "Photos/Solidwork Champion/1-optimized.jpg",
          "Photos/Solidwork Champion/2-optimized.jpg",
          "Photos/Solidwork Champion/3-optimized.jpg" ] }),
    ("injection-molding",
     { title := "Injection Molding Design",
       images :=
        [ "Photos/Injection Molding Design/1.jpg",
          "Photos/Injection Molding Design/2.jpg",
          "Photos/Injection Molding Design/3.jpg",
          "Photos/Injection Molding Design/4.jpg",
          "Photos/Injection Molding Design/5.jpg",
          "Photos/Injection Molding Design/6.jpg",
          "Photos/Injection Molding Design/7.jpg",
          "Photos/Injection Molding Design/8.jpg",
          "Photos/Injection Molding Design/9.png",
          "Photos/Injection Molding Design/10.png" ] }),
    ("wall-mounted-motor",
     { title := "Wall Mounted Motor Holder",
       images :=
        [ "Photos/Wall Mounted Motor Holder/1.png",
          "Photos/Wall Mounted Motor Holder/2.png",
          "Photos/Wall Mounted Motor Holder/3.png",
          "Photos/Wall Mounted Motor Holder/4.png",
          "Photos/Wall Mounted Motor Holder/5.png",
          "Photos/Wall Mounted Motor Holder/6.png",
          "Photos/Wall Mounted Motor Holder/7.png",
          "Photos/Wall Mounted Motor Holder/8.png",
          "Photos/Wall Mounted Motor Holder/9.png" ] }) ]

/-- `portfolioData[projectKey]` for a string key: own-property lookup. -/
def lookupProject (k : String) : Option ProjectEntry :=
  (portfolioData.find? (fun e => e.1 = k)).map (fun e => e.2)

/-- Which of the cached DOM elements (`cacheDOMElements`) actually exist.
`true` means `document.getElementById` found the element. -/
structure DomEnv where
  galleryModal : Bool
  galleryTitle : Bool
  galleryMainImage : Bool
  galleryCounter : Bool
  galleryThumbnails : Bool
deriving DecidableEq, Repr

/-- All gallery DOM hooks present (the normal page). -/
def domAll : DomEnv :=
  { galleryModal := true, galleryTitle := true, galleryMainImage := true,
    galleryCounter := true, galleryThumbnails := true }

/-- No gallery DOM hook present (the rendering surface is missing). -/
def domNone : DomEnv :=
  { galleryModal := false, galleryTitle := false, galleryMainImage := false,
    galleryCounter := false, galleryThumbnails := false }

/-- The mutable state touched by the gallery code: the two module-level
variables (`currentGallery`, `currentImageIndex`) and the DOM state the
gallery mutates (modal `active` class, `document.body.style.overflow`,
title text, main image `src` attribute, counter text, and the `active`
flag of each thumbnail in the strip). `mainImageSrc` is the value of
`getAttribute('src') || ''`, so the never-set attribute is `""`. -/
structure GalleryState where
  currentGallery : List String
  currentImageIndex : JsNum
  modalActive : Bool
  bodyOverflow : String
  galleryTitleText : String
  mainImageSrc : String
  counterText : String
  thumbs : List Bool
deriving DecidableEq, Repr

/-- State at script start: `currentGallery = []`, `currentImageIndex = 0`,
modal closed, body overflow at its default. -/
def initialState : GalleryState :=
  { currentGallery := []
    currentImageIndex := JsNum.int 0
    modalActive := false
    bodyOverflow := ""
    galleryTitleText := ""
    mainImageSrc := ""
    counterText := ""
    thumbs := [] }

/-- `currentGallery[currentImageIndex]`: `undefined` (None) for NaN or an
out-of-range index. -/
def jsIndex (l : List String) : JsNum → Option String
  | .int n => if n < 0 then none else l[n.toNat]?
  | .nan => none

/-- `index === currentImageIndex` for a thumbnail position `index`
(strict equality, false against NaN). -/
def jsEqIdx (j : Nat) : JsNum → Bool
  | .int n => (j : Int) == n
  | .nan => false

/-- The template literal for the counter text. -/
def galleryCounterText (s : GalleryState) : String :=
  (JsNum.add s.currentImageIndex (JsNum.int 1)).toStr ++ " / "
    ++ toString s.currentGallery.length

/-- `thumb.classList.toggle('active', index === currentImageIndex)` over
the existing thumbnail strip. -/
def refreshThumbs (s : GalleryState) : List Bool :=
  (List.range s.thumbs.length).map (fun j => jsEqIdx j s.currentImageIndex)

/-- The comparison `currentAttrSrc === nextSrc` of `updateGalleryImage`
(`getAttribute('src') || ''` against `currentGallery[currentImageIndex]`;
strict equality against `undefined` is false). -/
def sameSrc (s : GalleryState) : Bool :=
  match jsIndex s.currentGallery s.currentImageIndex with
  | some t => s.mainImageSrc = t
  | none => false

/-- The value `setAttribute('src', nextSrc)` stores: the looked-up path, or
the string coercion of `undefined` when the index is out of range. -/
def newSrcVal (s : GalleryState) : String :=
  match jsIndex s.currentGallery s.currentImageIndex with
  | some t => t
  | none => "undefined"

/-- The same-source branch of `updateGalleryImage`: only the counter text
and the thumbnail highlight change. -/
def renderSame (s : GalleryState) : GalleryState :=
  { s with counterText := galleryCounterText s, thumbs := refreshThumbs s }

/-- The differing-source branch after the `done` continuation has run:
`src` is swapped, counter and thumbnail highlight updated. -/
def renderSwap (s : GalleryState) : GalleryState :=
  { s with mainImageSrc := newSrcVal s,
           counterText := galleryCounterText s,
           thumbs := refreshThumbs s }

/-- `updateGalleryImage()`. Returns the settled state together with a flag
recording whether a new image load was initiated (a fresh `Image` given a
`src`). The `fetchpriority` and `decoding` attribute writes on the main
image element are loading hints with no further reads in the script and
are not part of the state. An absent element under a property access is a
thrown `TypeError`; which of `galleryCounter`/`galleryThumbnails` is hit
first when several hooks are missing is normalized, as no element after
`galleryMainImage` is guarded in the source at all. Each `DecodeOutcome`
is a branch because the source runs the same `done` continuation on decode
success (`then(done)`), decode rejection (`catch(() => done())`), and
synchronously when `decode` is unavailable. -/
def updateGalleryImage (dom : DomEnv) (dec : DecodeOutcome)
    (s : GalleryState) : Except String (GalleryState × Bool) :=
  if dom.galleryMainImage = false then Except.ok (s, false)
  else if dom.galleryCounter = false then
    Except.error "TypeError: DOM.galleryCounter is undefined"
  else if dom.galleryThumbnails = false then
    Except.error "TypeError: DOM.galleryThumbnails is undefined"
  else if sameSrc s then Except.ok (renderSame s, false)
  else
    match dec with
    | DecodeOutcome.success => Except.ok (renderSwap s, true)
    | DecodeOutcome.failure => Except.ok (renderSwap s, true)
    | DecodeOutcome.unavailable => Except.ok (renderSwap s, true)

/-- `createThumbnails()`: one fresh thumbnail per image, none `active`. -/
def createThumbnails (dom : DomEnv) (s : GalleryState) :
    Except String GalleryState :=
  if dom.galleryThumbnails = false then
    Except.error "TypeError: DOM.galleryThumbnails is undefined"
  else
    Except.ok { s with thumbs := s.currentGallery.map (fun _ => false) }

/-- `openGallery(projectKey)`; the returned list holds the
`console.error` messages in order. -/
def openGallery (dom : DomEnv) (dec : DecodeOutcome) (key : JsValue)
    (s : GalleryState) : Except String (GalleryState × List String) :=
  match key with
  | JsValue.str k =>
    if k = "" then Except.ok (s, ["Invalid project key:"])
    else
      match lookupProject k with
      | none => Except.ok (s, ["Project not found:"])
      | some p =>
        if p.images.length = 0 then
          Except.ok (s, ["Project has no images:"])
        else if dom.galleryModal = false || dom.galleryTitle = false then
          Except.ok (s, ["Gallery modal elements not found"])
        else
          let s1 := { s with currentGallery := p.images
                             currentImageIndex := JsNum.int 0
                             galleryTitleText := p.title
                             modalActive := true
                             bodyOverflow := "hidden" }
          match updateGalleryImage dom dec s1 with
          | Except.error e => Except.error e
          | Except.ok (s2, _) =>
            match createThumbnails dom s2 with
            | Except.error e => Except.error e
            | Except.ok s3 => Except.ok (s3, [])
  | _ => Except.ok (s, ["Invalid project key:"])

/-- `goToImage(index)` — sets `currentImageIndex` and re-renders. -/
def goToImage (dom : DomEnv) (dec : DecodeOutcome) (i : JsNum)
    (s : GalleryState) : Except String GalleryState :=
  match updateGalleryImage dom dec { s with currentImageIndex := i } with
  | Except.error e => Except.error e
  | Except.ok (s1, _) => Except.ok s1

/-- The assignment of `nextImage()`:
`(currentImageIndex + 1) % currentGallery.length`. -/
def nextIndexVal (s : GalleryState) : JsNum :=
  JsNum.mod (JsNum.add s.currentImageIndex (JsNum.int 1))
    (JsNum.int (s.currentGallery.length : Int))

/-- The assignment of `prevImage()`:
`(currentImageIndex - 1 + currentGallery.length) % currentGallery.length`. -/
def prevIndexVal (s : GalleryState) : JsNum :=
  JsNum.mod
    (JsNum.add (JsNum.sub s.currentImageIndex (JsNum.int 1))
      (JsNum.int (s.currentGallery.length : Int)))
    (JsNum.int (s.currentGallery.length : Int))

/-- `nextImage()`. -/
def nextImage (dom : DomEnv) (dec : DecodeOutcome) (s : GalleryState) :
    Except String GalleryState :=
  match updateGalleryImage dom dec
      { s with currentImageIndex := nextIndexVal s } with
  | Except.error e => Except.error e
  | Except.ok (s1, _) => Except.ok s1

/-- `prevImage()`. -/
def prevImage (dom : DomEnv) (dec : DecodeOutcome) (s : GalleryState) :
    Except String GalleryState :=
  match updateGalleryImage dom dec
      { s with currentImageIndex := prevIndexVal s } with
  | Except.error e => Except.error e
  | Except.ok (s1, _) => Except.ok s1

/-- `closeGallery()`: no null check — `DOM.galleryModal.classList` throws
when the modal element does not exist. -/
def closeGallery (dom : DomEnv) (s : GalleryState) :
    Except String GalleryState :=
  if dom.galleryModal = false then
    Except.error "TypeError: DOM.galleryModal is undefined"
  else
    Except.ok { s with modalActive := false, bodyOverflow := "" }

/-- `nextImage()` applied `n` times. -/
def nextN (dom : DomEnv) (dec : DecodeOutcome) :
    Nat → GalleryState → Except String GalleryState
  | 0, s => Except.ok s
  | n + 1, s =>
    match nextImage dom dec s with
    | Except.error e => Except.error e
    | Except.ok s1 => nextN dom dec n s1

/-- The document-level `keydown` listener of `initPortfolioHandlers`:
returns early unless the modal exists and has the `active` class. -/
def keydownHandler (dom : DomEnv) (dec : DecodeOutcome) (k : Key)
    (s : GalleryState) : Except String GalleryState :=
  if dom.galleryModal = false || s.modalActive = false then Except.ok s
  else
    match k with
    | Key.escape => closeGallery dom s
    | Key.arrowLeft => prevImage dom dec s
    | Key.arrowRight => nextImage dom dec s
    | Key.other => Except.ok s

/-- The backdrop `click` listener: registered only when the modal element
exists; calls `closeGallery()` when the click target is the modal itself. -/
def backdropClickHandler (dom : DomEnv) (targetIsModal : Bool)
    (s : GalleryState) : Except String GalleryState :=
  if dom.galleryModal = false then Except.ok s
  else if targetIsModal then closeGallery dom s
  else Except.ok s

/-- The state reached by `openGallery('ever')` from `initialState` with all
DOM hooks present: the lightbox is open on the 3-image EVER Monaco project. -/
def sEver : GalleryState :=
  { currentGallery :=
      ["Photos/EVER/1.webp", "Photos/EVER/2.webp", "Photos/EVER/C.webp"]
    currentImageIndex := JsNum.int 0
    modalActive := true
    bodyOverflow := "hidden"
    galleryTitleText := "EVER Monaco"
    mainImageSrc := "Photos/EVER/1.webp"
    counterText := "1 / 3"
    thumbs := [false, false, false] }

/-- An argument to `openGallery` that is invalid: not a string, the empty
string, an unknown key, or a key mapping to an entry with no images. -/
def badOpenArg : JsValue → Prop
  | JsValue.str k =>
    k = "" ∨ lookupProject k = none ∨
      ∃ p, lookupProject k = some p ∧ p.images = []
  | _ => True

/-! ## Helper lemmas -/

theorem updateGalleryImage_domAll (dec : DecodeOutcome) (s : GalleryState) :
    updateGalleryImage domAll dec s =
      if sameSrc s then Except.ok (renderSame s, false)
      else Except.ok (renderSwap s, true) := by
  cases dec <;> by_cases h : sameSrc s <;>
    simp [updateGalleryImage, domAll, h]

theorem updateGalleryImage_domAll_ok (dec : DecodeOutcome) (s : GalleryState) :
    ∃ s' b, updateGalleryImage domAll dec s = Except.ok (s', b) ∧
      s'.currentImageIndex = s.currentImageIndex ∧
      s'.currentGallery = s.currentGallery ∧
      s'.modalActive = s.modalActive ∧
      s'.bodyOverflow = s.bodyOverflow ∧
      s'.galleryTitleText = s.galleryTitleText := by
  rw [updateGalleryImage_domAll]
  by_cases h : sameSrc s
  · exact ⟨renderSame s, false, by rw [if_pos h], rfl, rfl, rfl, rfl, rfl⟩
  · exact ⟨renderSwap s, true, by rw [if_neg h], rfl, rfl, rfl, rfl, rfl⟩

theorem goToImage_domAll_ok (dec : DecodeOutcome) (i : JsNum)
    (s : GalleryState) :
    ∃ s', goToImage domAll dec i s = Except.ok s' ∧
      s'.currentImageIndex = i ∧
      s'.currentGallery = s.currentGallery := by
  obtain ⟨s', b, h, hi, hg, _⟩ :=
    updateGalleryImage_domAll_ok dec { s with currentImageIndex := i }
  exact ⟨s', by unfold goToImage; rw [h], hi, hg⟩

theorem nextImage_domAll_ok (dec : DecodeOutcome) (s : GalleryState) :
    ∃ s', nextImage domAll dec s = Except.ok s' ∧
      s'.currentImageIndex = nextIndexVal s ∧
      s'.currentGallery = s.currentGallery := by
  obtain ⟨s', b, h, hi, hg, _⟩ := updateGalleryImage_domAll_ok dec
    { s with currentImageIndex := nextIndexVal s }
  exact ⟨s', by unfold nextImage; rw [h], hi, hg⟩

theorem prevImage_domAll_ok (dec : DecodeOutcome) (s : GalleryState) :
    ∃ s', prevImage domAll dec s = Except.ok s' ∧
      s'.currentImageIndex = prevIndexVal s ∧
      s'.currentGallery = s.currentGallery := by
  obtain ⟨s', b, h, hi, hg, _⟩ := updateGalleryImage_domAll_ok dec
    { s with currentImageIndex := prevIndexVal s }
  exact ⟨s', by unfold prevImage; rw [h], hi, hg⟩

theorem nextIndexVal_int (s : GalleryState) (i : Int)
    (hidx : s.currentImageIndex = JsNum.int i) (h0 : 0 ≤ i)
    (hN : s.currentGallery.length ≠ 0) :
    nextIndexVal s = JsNum.int ((i + 1) % (s.currentGallery.length : Int)) := by
  have hNz : (s.currentGallery.length : Int) ≠ 0 := Int.natCast_ne_zero.mpr hN
  unfold nextIndexVal
  rw [hidx]
  simp only [JsNum.add, JsNum.mod, if_neg hNz, jsRem]
  rw [if_neg (by omega)]

theorem prevIndexVal_int (s : GalleryState) (j : Int)
    (hidx : s.currentImageIndex = JsNum.int j) (h0 : 0 ≤ j)
    (hN : s.currentGallery.length ≠ 0) :
    prevIndexVal s =
      JsNum.int ((j - 1 + (s.currentGallery.length : Int))
        % (s.currentGallery.length : Int)) := by
  have hNz : (s.currentGallery.length : Int) ≠ 0 := Int.natCast_ne_zero.mpr hN
  have hN1 : (1 : Int) ≤ (s.currentGallery.length : Int) := by
    have : 0 < s.currentGallery.length := Nat.pos_of_ne_zero hN
    exact_mod_cast this
  unfold prevIndexVal
  rw [hidx]
  simp only [JsNum.sub, JsNum.add, JsNum.mod, if_neg hNz, jsRem]
  rw [if_neg (by omega)]

theorem nextN_domAll_index (dec : DecodeOutcome) (k : Nat) :
    ∀ (s : GalleryState) (i : Int),
      s.currentImageIndex = JsNum.int i → 0 ≤ i →
      i < (s.currentGallery.length : Int) →
      ∃ s', nextN domAll dec k s = Except.ok s' ∧
        s'.currentImageIndex =
          JsNum.int ((i + k) % (s.currentGallery.length : Int)) ∧
        s'.currentGallery = s.currentGallery := by
  induction k with
  | zero =>
    intro s i hidx h0 hlt
    refine ⟨s, rfl, ?_, rfl⟩
    rw [hidx]
    congr 1
    rw [Nat.cast_zero, add_zero, Int.emod_eq_of_lt h0 hlt]
  | succ k ih =>
    intro s i hidx h0 hlt
    have hpos : (0 : Int) < (s.currentGallery.length : Int) :=
      lt_of_le_of_lt h0 hlt
    have hNz : (s.currentGallery.length : Int) ≠ 0 := ne_of_gt hpos
    have hN : s.currentGallery.length ≠ 0 := by exact_mod_cast hNz
    obtain ⟨s1, h1, hi1, hg1⟩ := nextImage_domAll_ok dec s
    rw [nextIndexVal_int s i hidx h0 hN] at hi1
    have hlen1 : (s1.currentGallery.length : Int)
        = (s.currentGallery.length : Int) := by rw [hg1]
    obtain ⟨s', h', hi', hg'⟩ :=
      ih s1 ((i + 1) % (s.currentGallery.length : Int)) hi1
        (Int.emod_nonneg _ hNz)
        (by rw [hlen1]; exact Int.emod_lt_of_pos _ hpos)
    refine ⟨s', ?_, ?_, by rw [hg', hg1]⟩
    · show nextN domAll dec (k + 1) s = Except.ok s'
      simp only [nextN]
      rw [h1]
      exact h'
    · rw [hi', hlen1, Int.emod_add_emod]
      congr 2
      push_cast
      ring

/-! ## Claim theorems -/

/-- C1 (counterexample): the spec says `goTo(i)` is a no-op for `i` outside
`[0, length)`, but `goToImage` has no range check: from the Open 3-image
EVER session, `goToImage(5)` succeeds and changes the session state,
setting `currentImageIndex` to the out-of-range value `5` (and rendering
the coerced `undefined` source with counter `6 / 3`). -/
theorem C1_goTo_out_of_range_counterexample :
    goToImage domAll DecodeOutcome.success (JsNum.int 5) sEver =
      Except.ok { sEver with currentImageIndex := JsNum.int 5,
                             mainImageSrc := "undefined",
                             counterText := "6 / 3" } ∧
    sEver.modalActive = true ∧
    sEver.currentGallery.length = 3 ∧
    sEver.currentImageIndex = JsNum.int 0 ∧
    ({ sEver with currentImageIndex := JsNum.int 5,
                  mainImageSrc := "undefined",
                  counterText := "6 / 3" } : GalleryState) ≠ sEver :=
  ⟨rfl, rfl, rfl, rfl, by decide⟩

/-- C1 (amended): `goToImage(i)` performs no range check: for every integer
argument `i`, in-range or not, it sets `currentImageIndex` to `i` and
re-renders, leaving `currentGallery` unchanged; the out-of-range case is
not a no-op. (In the delivered page `goToImage` is only invoked by
thumbnail clicks, whose indices are always in range.) -/
theorem C1_goTo_sets_index_unconditionally (dec : DecodeOutcome)
    (i : JsNum) (s : GalleryState) :
    ∃ s', goToImage domAll dec i s = Except.ok s' ∧
      s'.currentImageIndex = i ∧
      s'.currentGallery = s.currentGallery :=
  goToImage_domAll_ok dec i s

/-- C2 (counterexample): the spec says that with the gallery DOM hooks
absent every gallery operation is a logging no-op that never throws, but
`closeGallery` dereferences `DOM.galleryModal.classList` without a null
check and throws a `TypeError`, and `nextImage` silently changes
`currentImageIndex` (to NaN from the initial state) without logging. -/
theorem C2_domMissing_counterexample :
    closeGallery domNone initialState =
      Except.error "TypeError: DOM.galleryModal is undefined" ∧
    nextImage domNone DecodeOutcome.success initialState =
      Except.ok { initialState with currentImageIndex := JsNum.nan } ∧
    initialState.currentImageIndex = JsNum.int 0 ∧
    JsNum.nan ≠ JsNum.int 0 :=
  ⟨rfl, rfl, rfl, by decide⟩

/-- C2 (amended): with all gallery DOM hooks absent, `openGallery` is a
no-op that logs exactly one error and never throws; `nextImage`,
`prevImage` and `goToImage` never throw and leave all rendered state
untouched, but they do not log and still mutate `currentImageIndex`;
`closeGallery` throws a `TypeError` when called directly (the installed
UI paths guard on the modal element or wrap the call in try/catch). -/
theorem C2_domMissing_behaviour :
    (∀ dec key s, ∃ m,
      openGallery domNone dec key s = Except.ok (s, [m])) ∧
    (∀ dec s, nextImage domNone dec s =
      Except.ok { s with currentImageIndex := nextIndexVal s }) ∧
    (∀ dec s, prevImage domNone dec s =
      Except.ok { s with currentImageIndex := prevIndexVal s }) ∧
    (∀ dec i s, goToImage domNone dec i s =
      Except.ok { s with currentImageIndex := i }) ∧
    (∀ s, closeGallery domNone s =
      Except.error "TypeError: DOM.galleryModal is undefined") := by
  refine ⟨?_, fun dec s => rfl, fun dec s => rfl, fun dec i s => rfl,
    fun s => rfl⟩
  intro dec key s
  cases key with
  | str k =>
    by_cases hk : k = ""
    · exact ⟨"Invalid project key:", by simp [openGallery, hk]⟩
    · cases hp : lookupProject k with
      | none => exact ⟨"Project not found:", by simp [openGallery, hk, hp]⟩
      | some p =>
        by_cases hi : p.images.length = 0
        · exact ⟨"Project has no images:",
            by simp [openGallery, hk, hp, hi]⟩
        · exact ⟨"Gallery modal elements not found",
            by simp [openGallery, hk, hp, hi, domNone]⟩
  | num n => exact ⟨"Invalid project key:", rfl⟩
  | boolean b => exact ⟨"Invalid project key:", rfl⟩
  | undef => exact ⟨"Invalid project key:", rfl⟩
  | nullv => exact ⟨"Invalid project key:", rfl⟩

/-- C3: `openGallery` with an argument that is not a string, or does not
resolve in `portfolioData`, or resolves to an entry with an empty image
list, returns normally (never throws), logs exactly one error message,
and leaves the whole session state unchanged — no partial open. -/
theorem C3_open_invalid_is_logged_noop (dec : DecodeOutcome) (dom : DomEnv)
    (key : JsValue) (s : GalleryState) (h : badOpenArg key) :
    ∃ m, openGallery dom dec key s = Except.ok (s, [m]) := by
  cases key with
  | str k =>
    simp only [badOpenArg] at h
    by_cases hk : k = ""
    · exact ⟨"Invalid project key:", by simp [openGallery, hk]⟩
    · rcases h with h | h | ⟨p, hp, hpl⟩
      · exact absurd h hk
      · exact ⟨"Project not found:", by simp [openGallery, hk, h]⟩
      · have hi : p.images.length = 0 := by rw [hpl]; rfl
        exact ⟨"Project has no images:",
          by simp [openGallery, hk, hp, hi]⟩
  | num n => exact ⟨"Invalid project key:", rfl⟩
  | boolean b => exact ⟨"Invalid project key:", rfl⟩
  | undef => exact ⟨"Invalid project key:", rfl⟩
  | nullv => exact ⟨"Invalid project key:", rfl⟩

/-- Witness for C3 at the spec's own example: `open("does-not-exist")`
leaves the initial state unchanged with exactly one logged error. -/
theorem C3_open_invalid_witness :
    ∃ m, openGallery domAll DecodeOutcome.success
      (JsValue.str "does-not-exist") initialState =
        Except.ok (initialState, [m]) :=
  C3_open_invalid_is_logged_noop DecodeOutcome.success domAll
    (JsValue.str "does-not-exist") initialState (Or.inr (Or.inl rfl))

/-- C4: over any Open gallery of `N ≥ 1` images (index an integer in
`[0, N)`), applying `nextImage` exactly `N` times succeeds and returns
`currentImageIndex` to its starting value: navigation wraps modulo `N`. -/
theorem C4_next_cyclic (dec : DecodeOutcome) (s : GalleryState) (i : Int)
    (hidx : s.currentImageIndex = JsNum.int i) (h0 : 0 ≤ i)
    (hlt : i < (s.currentGallery.length : Int)) :
    ∃ s', nextN domAll dec s.currentGallery.length s = Except.ok s' ∧
      s'.currentImageIndex = s.currentImageIndex := by
  obtain ⟨s', h', hi', _⟩ :=
    nextN_domAll_index dec s.currentGallery.length s i hidx h0 hlt
  refine ⟨s', h', ?_⟩
  rw [hi', hidx]
  congr 1
  rw [show (i + (s.currentGallery.length : Int))
      % (s.currentGallery.length : Int)
      = i % (s.currentGallery.length : Int) by
    simpa using Int.add_mul_emod_self_left i
      (s.currentGallery.length : Int) 1]
  exact Int.emod_eq_of_lt h0 hlt

/-- Witness for C4: from the Open EVER session (3 images, index 0),
three `nextImage` calls return the index to 0. -/
theorem C4_next_cyclic_witness :
    ∃ s', nextN domAll DecodeOutcome.success sEver.currentGallery.length
        sEver = Except.ok s' ∧
      s'.currentImageIndex = sEver.currentImageIndex :=
  C4_next_cyclic DecodeOutcome.success sEver 0 rfl (by decide) (by decide)

/-- C5: on a non-empty Open gallery with an in-range integer index,
`prevImage` undoes `nextImage`: running `nextImage` then `prevImage`
succeeds and restores `currentImageIndex` (and `currentGallery`) to the
starting values. -/
theorem C5_prev_inverse_of_next (dec : DecodeOutcome) (s : GalleryState)
    (i : Int) (hidx : s.currentImageIndex = JsNum.int i) (h0 : 0 ≤ i)
    (hlt : i < (s.currentGallery.length : Int)) :
    ∃ s1 s2, nextImage domAll dec s = Except.ok s1 ∧
      prevImage domAll dec s1 = Except.ok s2 ∧
      s2.currentImageIndex = s.currentImageIndex ∧
      s2.currentGallery = s.currentGallery := by
  have hpos : (0 : Int) < (s.currentGallery.length : Int) :=
    lt_of_le_of_lt h0 hlt
  have hN : s.currentGallery.length ≠ 0 := by
    exact_mod_cast ne_of_gt hpos
  obtain ⟨s1, h1, hi1, hg1⟩ := nextImage_domAll_ok dec s
  rw [nextIndexVal_int s i hidx h0 hN] at hi1
  obtain ⟨s2, h2, hi2, hg2⟩ := prevImage_domAll_ok dec s1
  have hN1 : s1.currentGallery.length ≠ 0 := by rw [hg1]; exact hN
  have hj0 : 0 ≤ (i + 1) % (s.currentGallery.length : Int) :=
    Int.emod_nonneg _ (ne_of_gt hpos)
  rw [prevIndexVal_int s1 ((i + 1) % (s.currentGallery.length : Int))
    hi1 hj0 hN1] at hi2
  have hlen : (s1.currentGallery.length : Int)
      = (s.currentGallery.length : Int) := by rw [hg1]
  rw [hlen] at hi2
  refine ⟨s1, s2, h1, h2, ?_, by rw [hg2, hg1]⟩
  rw [hi2, hidx]
  congr 1
  rcases lt_or_eq_of_le (show i + 1 ≤ (s.currentGallery.length : Int) by
    omega) with hc | hc
  · rw [Int.emod_eq_of_lt (by omega) hc,
      show i + 1 - 1 + (s.currentGallery.length : Int)
        = i + (s.currentGallery.length : Int) by ring,
      show (i + (s.currentGallery.length : Int))
          % (s.currentGallery.length : Int)
          = i % (s.currentGallery.length : Int) by
        simpa using Int.add_mul_emod_self_left i
          (s.currentGallery.length : Int) 1]
    exact Int.emod_eq_of_lt h0 hlt
  · rw [hc, Int.emod_self,
      show (0 : Int) - 1 + (s.currentGallery.length : Int)
        = (s.currentGallery.length : Int) - 1 by ring,
      Int.emod_eq_of_lt (by omega) (by omega)]
    omega

/-- Witness for C5: from the Open EVER session at index 0, `nextImage`
then `prevImage` restores index and gallery. -/
theorem C5_prev_inverse_of_next_witness :
    ∃ s1 s2, nextImage domAll DecodeOutcome.success sEver = Except.ok s1 ∧
      prevImage domAll DecodeOutcome.success s1 = Except.ok s2 ∧
      s2.currentImageIndex = sEver.currentImageIndex ∧
      s2.currentGallery = sEver.currentGallery :=
  C5_prev_inverse_of_next DecodeOutcome.success sEver 0 rfl (by decide)
    (by decide)

theorem open_render_fields (dec : DecodeOutcome) (s1 : GalleryState) :
    ∃ s2 b, updateGalleryImage domAll dec s1 = Except.ok (s2, b) ∧
      createThumbnails domAll s2 =
        Except.ok { s2 with
          thumbs := s2.currentGallery.map (fun _ => false) } ∧
      s2.currentImageIndex = s1.currentImageIndex ∧
      s2.currentGallery = s1.currentGallery ∧
      s2.modalActive = s1.modalActive ∧
      s2.bodyOverflow = s1.bodyOverflow ∧
      s2.galleryTitleText = s1.galleryTitleText ∧
      s2.counterText = galleryCounterText s1 := by
  rw [updateGalleryImage_domAll]
  by_cases h : sameSrc s1
  · rw [if_pos h]
    exact ⟨renderSame s1, false, rfl, by simp [createThumbnails, domAll],
      rfl, rfl, rfl, rfl, rfl, rfl⟩
  · rw [if_neg h]
    exact ⟨renderSwap s1, true, rfl, by simp [createThumbnails, domAll],
      rfl, rfl, rfl, rfl, rfl, rfl⟩

/-- C6: for every key of `portfolioData` whose entry has at least one
image, with all DOM hooks present, `openGallery(key)` from any state
succeeds with no logged error and yields an Open session: modal active,
`currentImageIndex = 0`, `currentGallery` the entry's image list, the
title rendered, the page scroll locked, and the counter reading
`"1 / N"` with `N` the image count. -/
theorem C6_open_valid_opens_at_zero (dec : DecodeOutcome) (k : String)
    (p : ProjectEntry) (s : GalleryState)
    (hp : lookupProject k = some p) (hne : p.images ≠ []) :
    ∃ s', openGallery domAll dec (JsValue.str k) s = Except.ok (s', []) ∧
      s'.modalActive = true ∧
      s'.currentImageIndex = JsNum.int 0 ∧
      s'.currentGallery = p.images ∧
      s'.galleryTitleText = p.title ∧
      s'.bodyOverflow = "hidden" ∧
      s'.counterText = "1 / " ++ toString p.images.length := by
  have hk : ¬ k = "" := by
    intro h
    rw [h, show lookupProject "" = none from rfl] at hp
    exact Option.noConfusion hp
  have hlen : ¬ p.images.length = 0 := by
    simpa [List.length_eq_zero] using hne
  have hdom : ¬ ((decide (domAll.galleryModal = false)
      || decide (domAll.galleryTitle = false)) = true) := by decide
  unfold openGallery
  dsimp only
  rw [if_neg hk, hp]
  dsimp only
  rw [if_neg hlen, if_neg hdom]
  obtain ⟨s2, b, hu, hc, hidx, hgal, hact, hov, htitle, hcnt⟩ :=
    open_render_fields dec
      { s with currentGallery := p.images
               currentImageIndex := JsNum.int 0
               galleryTitleText := p.title
               modalActive := true
               bodyOverflow := "hidden" }
  rw [hu]
  dsimp only
  rw [hc]
  dsimp only
  refine ⟨_, rfl, hact, hidx, hgal, htitle, hov, ?_⟩
  rw [hcnt]
  rfl

/-- Witness for C6 at the catalog entry `"ever"` (3 images). -/
theorem C6_open_valid_witness :
    ∃ s', openGallery domAll DecodeOutcome.success (JsValue.str "ever")
        initialState = Except.ok (s', []) ∧
      s'.modalActive = true ∧
      s'.currentImageIndex = JsNum.int 0 ∧
      s'.currentGallery =
        ["Photos/EVER/1.webp", "Photos/EVER/2.webp", "Photos/EVER/C.webp"] ∧
      s'.galleryTitleText = "EVER Monaco" ∧
      s'.bodyOverflow = "hidden" ∧
      s'.counterText = "1 / " ++ toString
        (["Photos/EVER/1.webp", "Photos/EVER/2.webp",
          "Photos/EVER/C.webp"] : List String).length :=
  C6_open_valid_opens_at_zero DecodeOutcome.success "ever"
    { title := "EVER Monaco",
      images := ["Photos/EVER/1.webp", "Photos/EVER/2.webp",
        "Photos/EVER/C.webp"] }
    initialState rfl (by decide)

/-- C7: rendering contract of `updateGalleryImage` with the DOM hooks
present. If the target source equals the currently displayed `src`
(`sameSrc`), the result is exactly the state with only the counter text
and thumbnail highlight updated, and no image load is initiated (flag
`false`). Otherwise a load is initiated (flag `true`), the visible `src`
is swapped to the target, and the settled state is the same whether the
decode continuation ran on decode success, on decode failure, or
synchronously because `decode` was unavailable. -/
theorem C7_render_contract (dec : DecodeOutcome) (s : GalleryState) :
    (sameSrc s = true →
      updateGalleryImage domAll dec s = Except.ok (renderSame s, false) ∧
      renderSame s = { s with counterText := galleryCounterText s,
                              thumbs := refreshThumbs s } ∧
      (renderSame s).mainImageSrc = s.mainImageSrc) ∧
    (sameSrc s = false →
      updateGalleryImage domAll dec s = Except.ok (renderSwap s, true) ∧
      (renderSwap s).mainImageSrc = newSrcVal s ∧
      updateGalleryImage domAll DecodeOutcome.success s
        = updateGalleryImage domAll DecodeOutcome.failure s ∧
      updateGalleryImage domAll DecodeOutcome.failure s
        = updateGalleryImage domAll DecodeOutcome.unavailable s) := by
  constructor
  · intro h
    rw [updateGalleryImage_domAll, if_pos h]
    exact ⟨rfl, rfl, rfl⟩
  · intro h
    have hn : ¬ sameSrc s = true := by simp [h]
    rw [updateGalleryImage_domAll, if_neg hn]
    refine ⟨rfl, rfl, ?_, ?_⟩ <;>
      rw [updateGalleryImage_domAll, updateGalleryImage_domAll]

/-- Witness for C7: the same-source case at the freshly opened EVER
session, and the differing-source case after moving its index to 1. -/
theorem C7_render_contract_witness :
    (updateGalleryImage domAll DecodeOutcome.success sEver =
        Except.ok (renderSame sEver, false) ∧
      renderSame sEver =
        { sEver with counterText := galleryCounterText sEver,
                     thumbs := refreshThumbs sEver } ∧
      (renderSame sEver).mainImageSrc = sEver.mainImageSrc) ∧
    (updateGalleryImage domAll DecodeOutcome.success
        { sEver with currentImageIndex := JsNum.int 1 } =
        Except.ok (renderSwap
          { sEver with currentImageIndex := JsNum.int 1 }, true) ∧
      (renderSwap { sEver with currentImageIndex := JsNum.int 1
        }).mainImageSrc =
        newSrcVal { sEver with currentImageIndex := JsNum.int 1 } ∧
      updateGalleryImage domAll DecodeOutcome.success
          { sEver with currentImageIndex := JsNum.int 1 }
        = updateGalleryImage domAll DecodeOutcome.failure
          { sEver with currentImageIndex := JsNum.int 1 } ∧
      updateGalleryImage domAll DecodeOutcome.failure
          { sEver with currentImageIndex := JsNum.int 1 }
        = updateGalleryImage domAll DecodeOutcome.unavailable
          { sEver with currentImageIndex := JsNum.int 1 }) :=
  ⟨(C7_render_contract DecodeOutcome.success sEver).1 rfl,
   (C7_render_contract DecodeOutcome.success
     { sEver with currentImageIndex := JsNum.int 1 }).2 rfl⟩

/-- C8: the keyboard listener and the backdrop-click listener are
effective only while the session is Open. In any Closed state (modal not
active, scroll lock released) every key and any backdrop click leaves the
state exactly unchanged; in an Open state Escape routes to
`closeGallery`, the arrow keys to `prevImage`/`nextImage`, and a click on
the modal backdrop to `closeGallery`. -/
theorem C8_listeners_only_while_open (dec : DecodeOutcome) (k : Key)
    (t : Bool) (s : GalleryState) :
    (s.modalActive = false → s.bodyOverflow = "" →
      keydownHandler domAll dec k s = Except.ok s ∧
      backdropClickHandler domAll t s = Except.ok s) ∧
    (s.modalActive = true →
      keydownHandler domAll dec Key.escape s = closeGallery domAll s ∧
      keydownHandler domAll dec Key.arrowLeft s = prevImage domAll dec s ∧
      keydownHandler domAll dec Key.arrowRight s = nextImage domAll dec s ∧
      backdropClickHandler domAll true s = closeGallery domAll s) := by
  constructor
  · intro hm ho
    constructor
    · unfold keydownHandler
      simp [domAll, hm]
    · cases t
      · simp [backdropClickHandler, domAll]
      · have h1 : backdropClickHandler domAll true s =
            Except.ok { s with modalActive := false, bodyOverflow := "" } := by
          simp [backdropClickHandler, closeGallery, domAll]
        rw [h1]
        cases s
        simp_all
  · intro hm
    refine ⟨?_, ?_, ?_, ?_⟩ <;>
      simp [keydownHandler, backdropClickHandler, domAll, hm]

/-- Witness for C8: the Closed initial state ignores Escape and backdrop
clicks; the Open EVER session routes Escape to `closeGallery`. -/
theorem C8_listeners_witness :
    (keydownHandler domAll DecodeOutcome.success Key.escape initialState =
        Except.ok initialState ∧
      backdropClickHandler domAll true initialState =
        Except.ok initialState) ∧
    (keydownHandler domAll DecodeOutcome.success Key.escape sEver =
        closeGallery domAll sEver ∧
      keydownHandler domAll DecodeOutcome.success Key.arrowLeft sEver =
        prevImage domAll DecodeOutcome.success sEver ∧
      keydownHandler domAll DecodeOutcome.success Key.arrowRight sEver =
        nextImage domAll DecodeOutcome.success sEver ∧
      backdropClickHandler domAll true sEver = closeGallery domAll sEver) :=
  ⟨(C8_listeners_only_while_open DecodeOutcome.success Key.escape true
      initialState).1 rfl rfl,
   (C8_listeners_only_while_open DecodeOutcome.success Key.escape true
      sEver).2 rfl⟩

/-- C9: whenever the modal element exists (as it must for a session to
have been opened), `closeGallery()` from any state — whatever navigation
happened before — succeeds and produces the state with the modal
deactivated and `document.body.style.overflow` restored to its default
`""`: the session is Closed and the scroll lock released. -/
theorem C9_close_always_closes (dom : DomEnv) (s : GalleryState)
    (h : dom.galleryModal = true) :
    closeGallery dom s =
      Except.ok { s with modalActive := false, bodyOverflow := "" } := by
  unfold closeGallery
  rw [if_neg (by simp [h])]

/-- Witness for C9 at the Open EVER session. -/
theorem C9_close_always_closes_witness :
    closeGallery domAll sEver =
      Except.ok { sEver with modalActive := false, bodyOverflow := "" } :=
  C9_close_always_closes domAll sEver rfl

/-- C10: at script start `currentGallery` is `[]`, and from that state
`nextImage`/`prevImage` compute the new index modulo zero, yielding NaN
rather than an in-range index; whereas on any state whose gallery is
non-empty (witnessed by an in-range integer index), `nextImage` and
`prevImage` keep `currentImageIndex` an integer in `[0, length)`. -/
theorem C10_index_invariant_needs_nonempty (dec : DecodeOutcome) :
    initialState.currentGallery = [] ∧
    (∃ s', nextImage domAll dec initialState = Except.ok s' ∧
      s'.currentImageIndex = JsNum.nan) ∧
    (∃ s', prevImage domAll dec initialState = Except.ok s' ∧
      s'.currentImageIndex = JsNum.nan) ∧
    (∀ s i, s.currentImageIndex = JsNum.int i → 0 ≤ i →
      i < (s.currentGallery.length : Int) →
      (∃ s' j, nextImage domAll dec s = Except.ok s' ∧
        s'.currentImageIndex = JsNum.int j ∧ 0 ≤ j ∧
        j < (s.currentGallery.length : Int)) ∧
      (∃ s' j, prevImage domAll dec s = Except.ok s' ∧
        s'.currentImageIndex = JsNum.int j ∧ 0 ≤ j ∧
        j < (s.currentGallery.length : Int))) := by
  refine ⟨rfl, ?_, ?_, ?_⟩
  · cases dec <;> exact ⟨_, rfl, rfl⟩
  · cases dec <;> exact ⟨_, rfl, rfl⟩
  · intro s i hidx h0 hlt
    have hpos : (0 : Int) < (s.currentGallery.length : Int) :=
      lt_of_le_of_lt h0 hlt
    have hN : s.currentGallery.length ≠ 0 := by
      exact_mod_cast ne_of_gt hpos
    constructor
    · obtain ⟨s', h', hi', hg'⟩ := nextImage_domAll_ok dec s
      rw [nextIndexVal_int s i hidx h0 hN] at hi'
      refine ⟨s', (i + 1) % (s.currentGallery.length : Int), h', hi',
        Int.emod_nonneg _ (ne_of_gt hpos), Int.emod_lt_of_pos _ hpos⟩
    · obtain ⟨s', h', hi', hg'⟩ := prevImage_domAll_ok dec s
      rw [prevIndexVal_int s i hidx h0 hN] at hi'
      refine ⟨s', (i - 1 + (s.currentGallery.length : Int))
          % (s.currentGallery.length : Int), h', hi',
        Int.emod_nonneg _ (ne_of_gt hpos), Int.emod_lt_of_pos _ hpos⟩

/-- Witness for C10: the in-range preservation applied to the Open EVER
session at index 0 (the NaN conjuncts are already closed statements). -/
theorem C10_index_invariant_witness :
    (∃ s' j, nextImage domAll DecodeOutcome.success sEver =
        Except.ok s' ∧
      s'.currentImageIndex = JsNum.int j ∧ 0 ≤ j ∧
      j < (sEver.currentGallery.length : Int)) ∧
    (∃ s' j, prevImage domAll DecodeOutcome.success sEver =
        Except.ok s' ∧
      s'.currentImageIndex = JsNum.int j ∧ 0 ≤ j ∧
      j < (sEver.currentGallery.length : Int)) :=
  (C10_index_invariant_needs_nonempty DecodeOutcome.success).2.2.2 sEver 0
    rfl (by decide) (by decide)
